import Mathlib

/-!
Shallow embedding of the simulation engine of `src/app.py` (the TinyOneM2M
Edge Commander dashboard).  The embedded part is the live simulation loop
(lines 144-227 of the source) together with the bounded event log
(`add_log`, lines 95-98) and the per-tick cost computations (lines 150-188).
Python floats are modelled as exact rationals; the two random draws of a
tick (`load_factor` from `np.random.normal` and `runtime_overhead` from
`np.random.randint`) are passed in explicitly as the values drawn.
-/

namespace OneM2M

/-- The sidebar option strings of the source (lines 106-126). -/
def hwConstrained : String := "Raspberry Pi Zero W (512MB)"

def hwGateway : String := "Generic Gateway (4GB)"

def hwCloud : String := "Cloud Instance (16GB)"

def dbNormalized : String := "Normalized (Standard)"

def dbDenormalized : String := "Denormalized (TinyOneM2M)"

def rtManaged : String := "Python/Java (OpenMTC)"

def rtNative : String := "C-Native (TinyOneM2M)"

/-- The substring tested by the crash check at line 186 of the source. -/
def zeroNeedle : String := "Zero"

/-- Substring test on character lists: Python's `needle in hay`. -/
def has_sub (needle : List Char) : List Char → Bool
  | [] => needle.isEmpty
  | c :: rest => needle.isPrefixOf (c :: rest) || has_sub needle rest

/-- Python's `needle in hay` on strings (used at line 186 of the source). -/
def contains_sub (hay needle : String) : Bool :=
  has_sub needle.data hay.data

/-- Line 158-162 of the source: deep-query base latency in microseconds,
3300 for the normalized strategy, 4.5 otherwise, scaled by the drawn
`load_factor`. -/
def base_latency (db_strategy : String) (load_factor : ℚ) : ℚ :=
  if db_strategy = dbNormalized then 3300 * load_factor else 4.5 * load_factor

/-- Lines 167-172 of the source: base memory in MB, 60 for the managed
runtime branch, 5 otherwise. -/
def mem_usage_base (runtime_type : String) : ℚ :=
  if runtime_type = rtManaged then 60 else 5

/-- Lines 167-172 of the source: lower bound of `np.random.randint` for the
per-tick runtime overhead (microseconds). -/
def ov_lo (runtime_type : String) : ℤ :=
  if runtime_type = rtManaged then 5000 else 100

/-- Lines 167-172 of the source: (exclusive) upper bound of
`np.random.randint` for the per-tick runtime overhead. -/
def ov_hi (runtime_type : String) : ℤ :=
  if runtime_type = rtManaged then 15000 else 1200

/-- Lines 167-172 of the source: `randint(a, b)` draws `a ≤ x < b`. -/
def ov_in_range (runtime_type : String) (ov : ℤ) : Prop :=
  ov_lo runtime_type ≤ ov ∧ ov < ov_hi runtime_type

instance (rt : String) (ov : ℤ) : Decidable (ov_in_range rt ov) :=
  instDecidableAnd

/-- Line 174 of the source: total latency in milliseconds. -/
def total_latency_ms (db_strategy runtime_type : String)
    (load_factor : ℚ) (runtime_overhead : ℤ) : ℚ :=
  (base_latency db_strategy load_factor + (runtime_overhead : ℚ)) / 1000

/-- Line 178 of the source: the load schedule entry of tick `i`. -/
def resource_count (i : ℕ) : ℕ := 10000 + i * 1000

/-- Lines 179-182 of the source: per-resource RAM slope in MB,
0.00014 for the native runtime branch, 0.0008 otherwise. -/
def ram_slope (runtime_type : String) : ℚ :=
  if runtime_type = rtNative then 0.00014 else 0.0008

/-- Lines 179-182 of the source: simulated RAM usage in MB. -/
def ram_usage (runtime_type : String) (rc : ℕ) : ℚ :=
  mem_usage_base runtime_type + (rc : ℚ) * ram_slope runtime_type

/-- Lines 185-188 of the source: the crash flag is set exactly when the
hardware profile string contains "Zero" and RAM usage exceeds 450 MB. -/
def is_crashed (hw_profile runtime_type : String) (rc : ℕ) : Bool :=
  contains_sub hw_profile zeroNeedle && decide (ram_usage runtime_type rc > 450)

/-- The status labels the spec assigns to a tick: CRITICAL is the crash
branch (line 211), WARNING the high-latency branch (line 216), OPTIMAL the
fall-through. -/
inductive Status where
  | OPTIMAL
  | WARNING
  | CRITICAL
deriving DecidableEq, Repr

/-- The classifier of one tick, in the source's evaluation order: the crash
check (lines 186, 211) precedes the high-latency check
(`total_latency_ms > 10`, line 216). -/
def classify (hw_profile db_strategy runtime_type : String)
    (rc : ℕ) (load_factor : ℚ) (runtime_overhead : ℤ) : Status :=
  if is_crashed hw_profile runtime_type rc then Status.CRITICAL
  else if total_latency_ms db_strategy runtime_type load_factor runtime_overhead > 10 then
    Status.WARNING
  else Status.OPTIMAL

/-- The metric fields a tick computes (lines 154-182 of the source); the
query cost is the storage-strategy base latency in microseconds. -/
structure SimulationStep where
  memory_usage_mb : ℚ
  latency_ms : ℚ
  query_cost_us : ℚ
deriving DecidableEq, Repr

/-- The pure metric computation of one tick, with the two drawn jitter
values passed in explicitly. -/
def computeStep (db_strategy runtime_type : String) (rc : ℕ)
    (load_factor : ℚ) (runtime_overhead : ℤ) : SimulationStep :=
  { memory_usage_mb := ram_usage runtime_type rc
  , latency_ms := total_latency_ms db_strategy runtime_type load_factor runtime_overhead
  , query_cost_us := base_latency db_strategy load_factor }

/-- The metric computation with the random draws expressed as deterministic
functions of a jitter seed (the RNG state determines the drawn values). -/
def computeStepSeeded (drawLF : ℕ → ℚ) (drawOV : ℕ → ℤ)
    (db_strategy runtime_type : String) (rc : ℕ) (seed : ℕ) : SimulationStep :=
  computeStep db_strategy runtime_type rc (drawLF seed) (drawOV seed)

/-- Line 96 of the source: the formatted log line "> ts | message". -/
def fmt_line (ts message : String) : String :=
  "> " ++ ts ++ " | " ++ message

/-- Lines 95-98 of the source: append the formatted line at the tail; if
the length now exceeds 8, pop the head. -/
def add_log (log : List String) (ts message : String) : List String :=
  let l := log ++ [fmt_line ts message]
  if l.length > 8 then l.drop 1 else l

/-- Folding a whole sequence of appends through the logger. -/
def append_all (l0 : List String) (entries : List (String × String)) : List String :=
  entries.foldl (fun l p => add_log l p.1 p.2) l0

/-- Line 90 of the source: the initial log history. -/
def initLine1 : String := "> SYSTEM INITIALIZED..."

def initLine2 : String := "> WAITING FOR INPUT..."

def init_log : List String := [initLine1, initLine2]

/-- The termination reasons of a run: the loop ran off the end of the
schedule, the crash `break` at line 214 fired, or the activation checkbox
(line 144) was off so the loop never started. -/
inductive Reason where
  | SCHEDULE_EXHAUSTED
  | CRITICAL_HALT
  | CANCELLED
deriving DecidableEq, Repr

/-- One executed tick: the schedule entry, its computed metrics and its
classified status. -/
structure TickResult where
  rc : ℕ
  step : SimulationStep
  status : Status
deriving DecidableEq, Repr

/-- The outcome of a run: the ticks whose metrics were computed, the final
log history, and the termination reason. -/
structure RunResult where
  ticks : List TickResult
  log : List String
  reason : Reason
deriving DecidableEq, Repr

/-- The simulation loop of lines 150-227 of the source, generalized over
the schedule of resource counts.  Per tick, in source order: compute the
metrics (lines 154-182), then if the crash flag is set, halt without
appending to the log (the `break` at line 214 precedes `add_log` at line
222); otherwise append the tick's log line and continue.  `lf` and `ov` are
the jitter draws per tick index, `entries` the (timestamp, message) pair of
the tick's log line. -/
def sim_loop (hw db rt : String) (lf : ℕ → ℚ) (ov : ℕ → ℤ)
    (entries : ℕ → String × String) :
    List ℕ → ℕ → List String → RunResult
  | [], _, log => ⟨[], log, Reason.SCHEDULE_EXHAUSTED⟩
  | rc :: rest, i, log =>
    if is_crashed hw rt rc then
      ⟨[⟨rc, computeStep db rt rc (lf i) (ov i), classify hw db rt rc (lf i) (ov i)⟩],
        log, Reason.CRITICAL_HALT⟩
    else
      ⟨⟨rc, computeStep db rt rc (lf i) (ov i), classify hw db rt rc (lf i) (ov i)⟩ ::
          (sim_loop hw db rt lf ov entries rest (i + 1)
            (add_log log (entries i).1 (entries i).2)).ticks,
        (sim_loop hw db rt lf ov entries rest (i + 1)
          (add_log log (entries i).1 (entries i).2)).log,
        (sim_loop hw db rt lf ov entries rest (i + 1)
          (add_log log (entries i).1 (entries i).2)).reason⟩

/-- Line 150/178 of the source: the hardcoded 100-tick schedule. -/
def code_schedule : List ℕ := (List.range 100).map resource_count

/-- The whole script run (lines 144-227): the activation checkbox is read
once, before the first tick; `run_flag n` is the checkbox value before tick
`n`, and the source consults only `run_flag 0` (nothing inside the loop
reads it).  An unchecked box means the loop never starts. -/
def script (run_flag : ℕ → Bool) (hw db rt : String) (lf : ℕ → ℚ)
    (ov : ℕ → ℤ) (entries : ℕ → String × String) : RunResult :=
  if run_flag 0 then sim_loop hw db rt lf ov entries code_schedule 0 init_log
  else ⟨[], init_log, Reason.CANCELLED⟩

/-- The log obtained from `log` by `n` consecutive appends of the entries
starting at index `i0` (used to state which appends a halted run made). -/
def log_appends (entries : ℕ → String × String) (i0 : ℕ) (log : List String) :
    ℕ → List String
  | 0 => log
  | n + 1 => log_appends entries (i0 + 1)
      (add_log log (entries i0).1 (entries i0).2) n

/-- Concrete sample inputs used by witnesses and counterexamples. -/
def tsSample : String := "12:00:00"

def msgSample : String := "INSERT CIN"

def bogus : String := "Bogus"

def lfOne : ℕ → ℚ := fun _ => 1

def ovSample : ℕ → ℤ := fun _ => 100

def entriesSample : ℕ → String × String := fun _ => (tsSample, msgSample)

/-- The spec's end-to-end test schedule `[10000, 50000, 100000]`. -/
def threeSchedule : List ℕ := [10000, 50000, 100000]

/-- A checkbox trajectory that is on at script start and off from tick 1. -/
def flagOffAfter0 : ℕ → Bool := fun n => decide (n = 0)

/-- Nine identical log entries, for the capacity witness. -/
def nineEntries : List (String × String) := List.replicate 9 (tsSample, msgSample)

/-! Evaluation lemmas for the branch selectors. -/

theorem base_latency_normalized (lf : ℚ) : base_latency dbNormalized lf = 3300 * lf := by
  unfold base_latency; rw [if_pos rfl]

theorem base_latency_other (s : String) (h : s ≠ dbNormalized) (lf : ℚ) :
    base_latency s lf = 4.5 * lf := by
  unfold base_latency; rw [if_neg h]

theorem mem_usage_base_managed : mem_usage_base rtManaged = 60 := by
  unfold mem_usage_base; rw [if_pos rfl]

theorem mem_usage_base_other (s : String) (h : s ≠ rtManaged) : mem_usage_base s = 5 := by
  unfold mem_usage_base; rw [if_neg h]

theorem ram_slope_native : ram_slope rtNative = 0.00014 := by
  unfold ram_slope; rw [if_pos rfl]

theorem ram_slope_other (s : String) (h : s ≠ rtNative) : ram_slope s = 0.0008 := by
  unfold ram_slope; rw [if_neg h]

theorem ram_usage_managed (rc : ℕ) :
    ram_usage rtManaged rc = 60 + (rc : ℚ) * 0.0008 := by
  unfold ram_usage
  rw [mem_usage_base_managed, ram_slope_other rtManaged (by decide)]

theorem contains_zero_constrained : contains_sub hwConstrained zeroNeedle = true := by
  decide

/-! Bounds on the RAM model. -/

theorem mem_usage_base_le (rt : String) : mem_usage_base rt ≤ 60 := by
  unfold mem_usage_base; split <;> norm_num

theorem mem_usage_base_nonneg (rt : String) : 0 ≤ mem_usage_base rt := by
  unfold mem_usage_base; split <;> norm_num

theorem ram_slope_le (rt : String) : ram_slope rt ≤ 0.0008 := by
  unfold ram_slope; split <;> norm_num

theorem ram_slope_nonneg (rt : String) : 0 ≤ ram_slope rt := by
  unfold ram_slope; split <;> norm_num

theorem ram_usage_bound (rt : String) (rc : ℕ) :
    ram_usage rt rc ≤ 60 + (rc : ℚ) * 0.0008 := by
  unfold ram_usage
  have h0 : (0 : ℚ) ≤ (rc : ℚ) := Nat.cast_nonneg rc
  have h1 := mem_usage_base_le rt
  have h2 := ram_slope_le rt
  have h3 := ram_slope_nonneg rt
  nlinarith

theorem ram_usage_nonneg (rt : String) (rc : ℕ) : 0 ≤ ram_usage rt rc := by
  unfold ram_usage
  have h0 : (0 : ℚ) ≤ (rc : ℚ) := Nat.cast_nonneg rc
  have h1 := mem_usage_base_nonneg rt
  have h3 := ram_slope_nonneg rt
  nlinarith

theorem ram_usage_le_450 (rt : String) (rc : ℕ) (h : rc ≤ 487500) :
    ram_usage rt rc ≤ 450 := by
  have hc : (rc : ℚ) ≤ 487500 := by exact_mod_cast h
  have hb := ram_usage_bound rt rc
  nlinarith

/-! The crash flag and the classifier. -/

theorem is_crashed_false (hw rt : String) (rc : ℕ) (h : ram_usage rt rc ≤ 450) :
    is_crashed hw rt rc = false := by
  unfold is_crashed
  have hd : decide (ram_usage rt rc > 450) = false :=
    decide_eq_false (not_lt.2 h)
  rw [hd, Bool.and_false]

theorem is_crashed_constrained_iff (rt : String) (rc : ℕ) :
    is_crashed hwConstrained rt rc = true ↔ ram_usage rt rc > 450 := by
  unfold is_crashed
  rw [contains_zero_constrained, Bool.true_and, decide_eq_true_eq]

theorem classify_of_crashed (hw db rt : String) (rc : ℕ) (lf : ℚ) (ov : ℤ)
    (h : is_crashed hw rt rc = true) :
    classify hw db rt rc lf ov = Status.CRITICAL := by
  unfold classify; rw [if_pos h]

theorem classify_of_not_crashed (hw db rt : String) (rc : ℕ) (lf : ℚ) (ov : ℤ)
    (h : is_crashed hw rt rc = false) :
    classify hw db rt rc lf ov ≠ Status.CRITICAL := by
  unfold classify
  rw [if_neg (by simp [h])]
  split <;> intro hc <;> exact Status.noConfusion hc

/-! Unfolding equations of the loop. -/

theorem sim_loop_nil (hw db rt : String) (lf : ℕ → ℚ) (ov : ℕ → ℤ)
    (entries : ℕ → String × String) (i : ℕ) (log : List String) :
    sim_loop hw db rt lf ov entries [] i log = ⟨[], log, Reason.SCHEDULE_EXHAUSTED⟩ := rfl

theorem sim_loop_cons (hw db rt : String) (lf : ℕ → ℚ) (ov : ℕ → ℤ)
    (entries : ℕ → String × String) (rc : ℕ) (rest : List ℕ) (i : ℕ) (log : List String) :
    sim_loop hw db rt lf ov entries (rc :: rest) i log =
      if is_crashed hw rt rc then
        ⟨[⟨rc, computeStep db rt rc (lf i) (ov i), classify hw db rt rc (lf i) (ov i)⟩],
          log, Reason.CRITICAL_HALT⟩
      else
        ⟨⟨rc, computeStep db rt rc (lf i) (ov i), classify hw db rt rc (lf i) (ov i)⟩ ::
            (sim_loop hw db rt lf ov entries rest (i + 1)
              (add_log log (entries i).1 (entries i).2)).ticks,
          (sim_loop hw db rt lf ov entries rest (i + 1)
            (add_log log (entries i).1 (entries i).2)).log,
          (sim_loop hw db rt lf ov entries rest (i + 1)
            (add_log log (entries i).1 (entries i).2)).reason⟩ := rfl

/-- A run over a schedule on which the crash flag never fires executes the
whole schedule, classifies no tick CRITICAL, and exhausts the schedule. -/
theorem sim_loop_no_crash (hw db rt : String) (lf : ℕ → ℚ) (ov : ℕ → ℤ)
    (entries : ℕ → String × String) :
    ∀ (sched : List ℕ) (i0 : ℕ) (log : List String),
      (∀ rc ∈ sched, is_crashed hw rt rc = false) →
      (sim_loop hw db rt lf ov entries sched i0 log).reason = Reason.SCHEDULE_EXHAUSTED ∧
      (sim_loop hw db rt lf ov entries sched i0 log).ticks.map TickResult.rc = sched ∧
      Status.CRITICAL ∉
        (sim_loop hw db rt lf ov entries sched i0 log).ticks.map TickResult.status := by
  intro sched
  induction sched with
  | nil =>
    intro i0 log _
    rw [sim_loop_nil]
    exact ⟨rfl, rfl, by simp⟩
  | cons rc rest ih =>
    intro i0 log hall
    have h0 : is_crashed hw rt rc = false := hall rc (List.mem_cons_self rc rest)
    have hrest : ∀ r ∈ rest, is_crashed hw rt r = false :=
      fun r hr => hall r (List.mem_cons_of_mem rc hr)
    obtain ⟨ih1, ih2, ih3⟩ :=
      ih (i0 + 1) (add_log log (entries i0).1 (entries i0).2) hrest
    rw [sim_loop_cons, if_neg (by simp [h0])]
    refine ⟨ih1, by simpa using ih2, ?_⟩
    simp only [List.map_cons, List.mem_cons]
    rintro (hc | hc)
    · exact classify_of_not_crashed hw db rt rc (lf i0) (ov i0) h0 hc.symm
    · exact ih3 hc

/-- Schedule entries of the hardcoded 100-tick loop never exceed 109000. -/
theorem code_schedule_le (rc : ℕ) (h : rc ∈ code_schedule) : rc ≤ 109000 := by
  unfold code_schedule at h
  obtain ⟨i, hi, rfl⟩ := List.mem_map.1 h
  have : i < 100 := List.mem_range.1 hi
  unfold resource_count
  omega

theorem code_schedule_length : code_schedule.length = 100 := by
  unfold code_schedule
  rw [List.length_map, List.length_range]

theorem code_schedule_no_crash (hw rt : String) :
    ∀ rc ∈ code_schedule, is_crashed hw rt rc = false := by
  intro rc h
  exact is_crashed_false hw rt rc
    (ram_usage_le_450 rt rc (by have := code_schedule_le rc h; omega))

/-! The bounded event log. -/

theorem add_log_length (log : List String) (ts m : String) (h : log.length ≤ 8) :
    (add_log log ts m).length ≤ 8 := by
  simp only [add_log]
  split <;> rename_i h2 <;>
    simp only [List.length_drop, List.length_append, List.length_singleton] at h2 ⊢ <;>
    omega

theorem append_all_eq (entries : List (String × String)) :
    ∀ (l0 : List String), l0.length ≤ 8 →
      append_all l0 entries =
        (l0 ++ entries.map (fun p => fmt_line p.1 p.2)).drop
          (l0.length + entries.length - 8) := by
  induction entries with
  | nil =>
    intro l0 h
    unfold append_all
    simp only [List.foldl_nil, List.map_nil, List.append_nil, List.length_nil, Nat.add_zero]
    rw [Nat.sub_eq_zero_of_le h, List.drop_zero]
  | cons e rest ih =>
    intro l0 h
    unfold append_all
    simp only [List.foldl_cons]
    have step := ih (add_log l0 e.1 e.2) (add_log_length l0 e.1 e.2 h)
    unfold append_all at step
    rw [step]
    simp only [List.map_cons, List.length_cons]
    by_cases hc : l0.length = 8
    · have hgt : (l0 ++ [fmt_line e.1 e.2]).length > 8 := by
        simp only [List.length_append, List.length_singleton]; omega
      have hadd : add_log l0 e.1 e.2 = (l0 ++ [fmt_line e.1 e.2]).drop 1 := by
        simp only [add_log]; rw [if_pos hgt]
      rw [hadd]
      have hlen : ((l0 ++ [fmt_line e.1 e.2]).drop 1).length = 8 := by
        simp only [List.length_drop, List.length_append, List.length_singleton]; omega
      rw [hlen]
      rw [← List.drop_append_of_le_length
        (by simp only [List.length_append, List.length_singleton]; omega)]
      rw [List.drop_drop]
      rw [List.append_assoc, List.singleton_append]
      congr 1
      omega
    · have hlt : l0.length < 8 := lt_of_le_of_ne h hc
      have hadd : add_log l0 e.1 e.2 = l0 ++ [fmt_line e.1 e.2] := by
        simp only [add_log]
        rw [if_neg (by simp only [List.length_append, List.length_singleton]; omega)]
      rw [hadd]
      rw [List.append_assoc, List.singleton_append]
      congr 1
      simp only [List.length_append, List.length_singleton]
      omega

/-- C3: the event log holds at most its capacity of 8 entries after any
append (starting from the 2-entry initial history or any state within
capacity), and after appending `8 + k` entries (`k > 0`) the snapshot is
exactly the 8 most recent formatted entries, oldest first: each append
inserts at the tail and eviction pops the head. -/
theorem C3_event_log_bounded :
    init_log.length ≤ 8 ∧
    (∀ (log : List String) (ts m : String), log.length ≤ 8 →
      (add_log log ts m).length ≤ 8) ∧
    (∀ (l0 : List String) (entries : List (String × String)) (k : ℕ),
      l0.length ≤ 8 → entries.length = 8 + k → 0 < k →
      (append_all l0 entries).length = 8 ∧
      append_all l0 entries = (entries.map (fun p => fmt_line p.1 p.2)).drop k) := by
  refine ⟨by simp [init_log], add_log_length, ?_⟩
  intro l0 entries k h1 h2 _
  have he := append_all_eq entries l0 h1
  constructor
  · rw [he]
    simp only [List.length_drop, List.length_append, List.length_map, h2]
    omega
  · rw [he]
    have harith : l0.length + entries.length - 8 = l0.length + k := by omega
    rw [harith, ← List.drop_drop, List.drop_left]

/-- Witness for C3 at a concrete input: nine appends into an empty log
leave exactly the last eight entries. -/
theorem C3_event_log_bounded_witness :
    (append_all [] nineEntries).length = 8 ∧
    append_all [] nineEntries =
      (nineEntries.map (fun p => fmt_line p.1 p.2)).drop 1 :=
  C3_event_log_bounded.2.2 [] nineEntries 1 (by simp) (by simp [nineEntries])
    (by norm_num)

/-- C4: once a tick's crash flag is set (the step is classified CRITICAL),
the loop executes no later tick: exactly `j + 1` ticks compute metrics, the
log receives appends only for the `j` earlier ticks (the crashed tick's
`break` precedes its `add_log`), and the run reports CRITICAL_HALT. -/
theorem C4_halt_on_critical (hw db rt : String) (lf : ℕ → ℚ) (ov : ℕ → ℤ)
    (entries : ℕ → String × String) :
    ∀ (sched : List ℕ) (i0 : ℕ) (log : List String) (j : ℕ) (hj : j < sched.length),
      is_crashed hw rt (sched.get ⟨j, hj⟩) = true →
      (∀ (m : ℕ) (hm : m < j), is_crashed hw rt (sched.get ⟨m, Nat.lt_trans hm hj⟩) = false) →
      (sim_loop hw db rt lf ov entries sched i0 log).ticks.length = j + 1 ∧
      (sim_loop hw db rt lf ov entries sched i0 log).reason = Reason.CRITICAL_HALT ∧
      (sim_loop hw db rt lf ov entries sched i0 log).log = log_appends entries i0 log j := by
  intro sched
  induction sched with
  | nil => intro i0 log j hj; exact absurd hj (Nat.not_lt_zero j)
  | cons rc rest ih =>
    intro i0 log j hj hc hprev
    cases j with
    | zero =>
      have hcrc : is_crashed hw rt rc = true := hc
      rw [sim_loop_cons, if_pos hcrc]
      exact ⟨rfl, rfl, rfl⟩
    | succ j2 =>
      have h0 : is_crashed hw rt rc = false := hprev 0 (Nat.succ_pos j2)
      have hj2 : j2 < rest.length := Nat.lt_of_succ_lt_succ hj
      have hc2 : is_crashed hw rt (rest.get ⟨j2, hj2⟩) = true := hc
      have hprev2 : ∀ (m : ℕ) (hm : m < j2),
          is_crashed hw rt (rest.get ⟨m, Nat.lt_trans hm hj2⟩) = false :=
        fun m hm => hprev (m + 1) (Nat.succ_lt_succ hm)
      obtain ⟨ihl, ihr, ihlog⟩ :=
        ih (i0 + 1) (add_log log (entries i0).1 (entries i0).2) j2 hj2 hc2 hprev2
      rw [sim_loop_cons, if_neg (by simp [h0])]
      exact ⟨by simp only [List.length_cons, ihl], ihr, ihlog⟩

/-- Witness for C4 at a concrete input: on schedule `[600000]` with the
managed runtime on the constrained profile, the first tick crashes, one
tick runs and the reason is CRITICAL_HALT. -/
theorem C4_halt_on_critical_witness :
    (sim_loop hwConstrained dbNormalized rtManaged lfOne ovSample entriesSample
        [600000] 0 init_log).ticks.length = 1 ∧
    (sim_loop hwConstrained dbNormalized rtManaged lfOne ovSample entriesSample
        [600000] 0 init_log).reason = Reason.CRITICAL_HALT := by
  have hcrash : is_crashed hwConstrained rtManaged 600000 = true := by
    rw [is_crashed_constrained_iff, ram_usage_managed]
    norm_num
  have h := C4_halt_on_critical hwConstrained dbNormalized rtManaged lfOne ovSample
    entriesSample [600000] 0 init_log 0 (by simp) hcrash
    (fun m hm => absurd hm (Nat.not_lt_zero m))
  exact ⟨h.1, h.2.1⟩

/-- C1 fails on the code: a step of the constrained (512 MB) profile with
`memory_usage_mb = 460.7` (reached at 500875 resources on the managed
runtime) is strictly below `0.9 * 512 = 460.8`, yet the code's crash flag
(the CRITICAL classification) is set, because the source compares against
the fixed constant 450, not `0.9 * capacity`. -/
theorem C1_counterexample :
    ram_usage rtManaged 500875 = 460.7 ∧
    ¬ ((460.7 : ℚ) ≥ 0.9 * 512) ∧
    is_crashed hwConstrained rtManaged 500875 = true := by
  refine ⟨?_, by norm_num, ?_⟩
  · rw [ram_usage_managed]; norm_num
  · rw [is_crashed_constrained_iff, ram_usage_managed]; norm_num

/-- C1 amended: on the constrained profile the classifier returns CRITICAL
exactly when `memory_usage_mb > 450` (a fixed threshold, not
`0.9 * hardware_capacity_mb`); both 460.8 (at 501000 resources) and 460.7
(at 500875) are CRITICAL, while exactly 450 (at 487500) is not. -/
theorem C1_amended :
    (∀ (rt : String) (rc : ℕ),
      is_crashed hwConstrained rt rc = true ↔ ram_usage rt rc > 450) ∧
    ram_usage rtManaged 501000 = 460.8 ∧
    is_crashed hwConstrained rtManaged 501000 = true ∧
    is_crashed hwConstrained rtManaged 500875 = true ∧
    ram_usage rtManaged 487500 = 450 ∧
    is_crashed hwConstrained rtManaged 487500 = false := by
  refine ⟨is_crashed_constrained_iff, ?_, ?_, ?_, ?_, ?_⟩
  · rw [ram_usage_managed]; norm_num
  · rw [is_crashed_constrained_iff, ram_usage_managed]; norm_num
  · rw [is_crashed_constrained_iff, ram_usage_managed]; norm_num
  · rw [ram_usage_managed]; norm_num
  · exact is_crashed_false hwConstrained rtManaged 487500
      (by rw [ram_usage_managed]; norm_num)

/-- Schedule entries of the spec's three-step test schedule stay at or
below 487500 resources, hence at or below 450 MB simulated RAM. -/
theorem threeSchedule_no_crash (hw rt : String) :
    ∀ rc ∈ threeSchedule, is_crashed hw rt rc = false := by
  intro rc h
  apply is_crashed_false
  apply ram_usage_le_450
  unfold threeSchedule at h
  simp only [List.mem_cons, List.mem_singleton, List.not_mem_nil, or_false] at h
  rcases h with rfl | rfl | rfl <;> norm_num

/-- C2 fails on the code: running the schedule `[10000, 50000, 100000]`
with the managed runtime and normalized storage on the constrained 512 MB
profile never reaches CRITICAL (peak simulated RAM is 140 MB, below the
450 MB crash threshold) and terminates with SCHEDULE_EXHAUSTED, not
CRITICAL_HALT. -/
theorem C2_counterexample :
    (sim_loop hwConstrained dbNormalized rtManaged lfOne ovSample entriesSample
        threeSchedule 0 init_log).reason = Reason.SCHEDULE_EXHAUSTED ∧
    (sim_loop hwConstrained dbNormalized rtManaged lfOne ovSample entriesSample
        threeSchedule 0 init_log).reason ≠ Reason.CRITICAL_HALT ∧
    Status.CRITICAL ∉
      (sim_loop hwConstrained dbNormalized rtManaged lfOne ovSample entriesSample
          threeSchedule 0 init_log).ticks.map TickResult.status := by
  obtain ⟨h1, _, h3⟩ := sim_loop_no_crash hwConstrained dbNormalized rtManaged lfOne
    ovSample entriesSample threeSchedule 0 init_log
    (threeSchedule_no_crash hwConstrained rtManaged)
  refine ⟨h1, ?_, h3⟩
  rw [h1]
  decide

/-- C2 amended: for every jitter draw and log state, the run of
`[10000, 50000, 100000]` with runtime MANAGED and storage NORMALIZED on
the 512 MB profile executes all three steps, classifies none CRITICAL,
and terminates with SCHEDULE_EXHAUSTED. -/
theorem C2_amended (lf : ℕ → ℚ) (ov : ℕ → ℤ) (entries : ℕ → String × String)
    (i0 : ℕ) (log0 : List String) :
    (sim_loop hwConstrained dbNormalized rtManaged lf ov entries
        threeSchedule i0 log0).reason = Reason.SCHEDULE_EXHAUSTED ∧
    (sim_loop hwConstrained dbNormalized rtManaged lf ov entries
        threeSchedule i0 log0).ticks.map TickResult.rc = threeSchedule ∧
    Status.CRITICAL ∉
      (sim_loop hwConstrained dbNormalized rtManaged lf ov entries
          threeSchedule i0 log0).ticks.map TickResult.status :=
  sim_loop_no_crash hwConstrained dbNormalized rtManaged lf ov entries
    threeSchedule i0 log0 (threeSchedule_no_crash hwConstrained rtManaged)

/-- C5 fails on the code: the activation checkbox is read once, before the
loop; with a flag trajectory that is on at script start and off (cancelled)
from tick 1 on, every one of the 100 ticks still executes and the run ends
with SCHEDULE_EXHAUSTED rather than CANCELLED. -/
theorem C5_counterexample :
    flagOffAfter0 1 = false ∧
    (script flagOffAfter0 hwConstrained dbDenormalized rtNative lfOne ovSample
        entriesSample).ticks.length = 100 ∧
    (script flagOffAfter0 hwConstrained dbDenormalized rtNative lfOne ovSample
        entriesSample).reason = Reason.SCHEDULE_EXHAUSTED := by
  refine ⟨rfl, ?_, ?_⟩
  · unfold script
    rw [if_pos (show flagOffAfter0 0 = true from rfl)]
    obtain ⟨_, h2, _⟩ := sim_loop_no_crash hwConstrained dbDenormalized rtNative lfOne
      ovSample entriesSample code_schedule 0 init_log
      (code_schedule_no_crash hwConstrained rtNative)
    have hl := congrArg List.length h2
    rw [List.length_map] at hl
    rw [hl, code_schedule_length]
  · unfold script
    rw [if_pos (show flagOffAfter0 0 = true from rfl)]
    exact (sim_loop_no_crash hwConstrained dbDenormalized rtNative lfOne
      ovSample entriesSample code_schedule 0 init_log
      (code_schedule_no_crash hwConstrained rtNative)).1

/-- C5 amended: the code polls the cancellation flag only once, before the
first tick.  If the flag is off at script start no tick executes and the
run reports CANCELLED; and the whole run depends only on the flag's value
before tick 0, so a flag change after the run begins is never observed
within the run. -/
theorem C5_amended :
    (∀ (f : ℕ → Bool) (hw db rt : String) (lf : ℕ → ℚ) (ov : ℕ → ℤ)
        (entries : ℕ → String × String), f 0 = false →
      script f hw db rt lf ov entries = ⟨[], init_log, Reason.CANCELLED⟩) ∧
    (∀ (f g : ℕ → Bool) (hw db rt : String) (lf : ℕ → ℚ) (ov : ℕ → ℤ)
        (entries : ℕ → String × String), f 0 = g 0 →
      script f hw db rt lf ov entries = script g hw db rt lf ov entries) := by
  constructor
  · intro f hw db rt lf ov entries h
    unfold script
    rw [h, if_neg Bool.false_ne_true]
  · intro f g hw db rt lf ov entries h
    unfold script
    rw [h]

/-- Witness for C5 amended at a concrete input: with the flag off at
script start, the run is empty and reports CANCELLED. -/
theorem C5_amended_witness :
    script (fun _ => false) hwConstrained dbNormalized rtManaged lfOne ovSample
        entriesSample = ⟨[], init_log, Reason.CANCELLED⟩ :=
  C5_amended.1 (fun _ => false) hwConstrained dbNormalized rtManaged lfOne ovSample
    entriesSample rfl

/-- C10: for every hardware profile, runtime kernel and storage strategy
string and every tick `i < 100` of the hardcoded schedule
`resource_count i = 10000 + i * 1000`, simulated RAM is at most
`60 + 0.0008 * 109000 = 147.2` MB, strictly below the 450 MB crash
threshold; hence the crash flag is never set, the out-of-memory halt
branch is unreachable, and every uncancelled run completes all 100 ticks
with SCHEDULE_EXHAUSTED. -/
theorem C10_crash_unreachable :
    (∀ (rt : String) (i : ℕ), i < 100 → ram_usage rt (resource_count i) ≤ 147.2) ∧
    ((147.2 : ℚ) < 450) ∧
    (∀ (hw rt : String) (i : ℕ), i < 100 →
      is_crashed hw rt (resource_count i) = false) ∧
    (∀ (hw db rt : String) (lf : ℕ → ℚ) (ov : ℕ → ℤ)
        (entries : ℕ → String × String),
      (script (fun _ => true) hw db rt lf ov entries).reason
          = Reason.SCHEDULE_EXHAUSTED ∧
      (script (fun _ => true) hw db rt lf ov entries).ticks.length = 100) := by
  have hbound : ∀ (rt : String) (i : ℕ), i < 100 →
      ram_usage rt (resource_count i) ≤ 147.2 := by
    intro rt i hi
    have h1 := ram_usage_bound rt (resource_count i)
    have h2 : resource_count i ≤ 109000 := by unfold resource_count; omega
    have h3 : ((resource_count i : ℕ) : ℚ) ≤ 109000 := by exact_mod_cast h2
    nlinarith
  refine ⟨hbound, by norm_num, ?_, ?_⟩
  · intro hw rt i hi
    exact is_crashed_false hw rt _ (le_trans (hbound rt i hi) (by norm_num))
  · intro hw db rt lf ov entries
    unfold script
    rw [if_pos rfl]
    obtain ⟨h1, h2, _⟩ := sim_loop_no_crash hw db rt lf ov entries code_schedule 0
      init_log (code_schedule_no_crash hw rt)
    refine ⟨h1, ?_⟩
    have hl := congrArg List.length h2
    rw [List.length_map] at hl
    rw [hl, code_schedule_length]

/-- Witness for C10 at a concrete input: the last tick of the schedule. -/
theorem C10_crash_unreachable_witness :
    ram_usage rtManaged (resource_count 99) ≤ 147.2 ∧
    is_crashed hwConstrained rtManaged (resource_count 99) = false :=
  ⟨C10_crash_unreachable.1 rtManaged 99 (by norm_num),
   C10_crash_unreachable.2.2.1 hwConstrained rtManaged 99 (by norm_num)⟩

/-- C6: the metric calculator is deterministic: two invocations with
identical coefficient selectors (storage strategy and runtime kernel
strings), resource count and jitter seed — the drawn jitter values being a
function of the seed — agree on every field of the resulting step. -/
theorem C6_determinism (drawLF : ℕ → ℚ) (drawOV : ℕ → ℤ)
    (db1 db2 rt1 rt2 : String) (rc1 rc2 s1 s2 : ℕ)
    (hdb : db1 = db2) (hrt : rt1 = rt2) (hrc : rc1 = rc2) (hs : s1 = s2) :
    (computeStepSeeded drawLF drawOV db1 rt1 rc1 s1).memory_usage_mb =
      (computeStepSeeded drawLF drawOV db2 rt2 rc2 s2).memory_usage_mb ∧
    (computeStepSeeded drawLF drawOV db1 rt1 rc1 s1).latency_ms =
      (computeStepSeeded drawLF drawOV db2 rt2 rc2 s2).latency_ms ∧
    (computeStepSeeded drawLF drawOV db1 rt1 rc1 s1).query_cost_us =
      (computeStepSeeded drawLF drawOV db2 rt2 rc2 s2).query_cost_us := by
  subst hdb; subst hrt; subst hrc; subst hs
  exact ⟨rfl, rfl, rfl⟩

/-- Witness for C6 at a concrete input. -/
theorem C6_determinism_witness :
    (computeStepSeeded lfOne ovSample dbNormalized rtNative 10000 5).memory_usage_mb =
      (computeStepSeeded lfOne ovSample dbNormalized rtNative 10000 5).memory_usage_mb ∧
    (computeStepSeeded lfOne ovSample dbNormalized rtNative 10000 5).latency_ms =
      (computeStepSeeded lfOne ovSample dbNormalized rtNative 10000 5).latency_ms ∧
    (computeStepSeeded lfOne ovSample dbNormalized rtNative 10000 5).query_cost_us =
      (computeStepSeeded lfOne ovSample dbNormalized rtNative 10000 5).query_cost_us :=
  C6_determinism lfOne ovSample dbNormalized dbNormalized rtNative rtNative
    10000 10000 5 5 rfl rfl rfl rfl

/-- C7 fails on the code: the load factor is drawn from an unbounded normal
distribution, and a negative draw (here -10, with a legal overhead draw of
100 for the native runtime) makes both the query cost and the total latency
negative. -/
theorem C7_counterexample :
    ov_in_range rtNative 100 ∧
    (computeStep dbNormalized rtNative 10000 (-10) 100).query_cost_us < 0 ∧
    (computeStep dbNormalized rtNative 10000 (-10) 100).latency_ms < 0 := by
  have h1 : ov_lo rtNative = 100 := by unfold ov_lo; rw [if_neg (by decide)]
  have h2 : ov_hi rtNative = 1200 := by unfold ov_hi; rw [if_neg (by decide)]
  refine ⟨⟨by rw [h1], by rw [h2]; norm_num⟩, ?_, ?_⟩
  · show base_latency dbNormalized (-10) < 0
    rw [base_latency_normalized]
    norm_num
  · show total_latency_ms dbNormalized rtNative (-10) 100 < 0
    unfold total_latency_ms
    rw [base_latency_normalized]
    norm_num

/-- C7 amended: if the drawn load factor is non-negative (and the overhead
lies in its drawn range, which is always at least 100), every metric field
is non-negative and the latency is strictly positive.  (All fields are
finite by construction: the model computes in exact rationals.) -/
theorem C7_amended (db rt : String) (rc : ℕ) (lf : ℚ) (ov : ℤ)
    (hlf : 0 ≤ lf) (hov : ov_in_range rt ov) :
    0 ≤ (computeStep db rt rc lf ov).memory_usage_mb ∧
    0 ≤ (computeStep db rt rc lf ov).query_cost_us ∧
    0 < (computeStep db rt rc lf ov).latency_ms := by
  have hq : 0 ≤ base_latency db lf := by
    unfold base_latency; split <;> nlinarith
  have hov100 : (100 : ℤ) ≤ ov := by
    have hlo : (100 : ℤ) ≤ ov_lo rt := by unfold ov_lo; split <;> norm_num
    exact le_trans hlo hov.1
  have hovq : (100 : ℚ) ≤ (ov : ℚ) := by exact_mod_cast hov100
  refine ⟨ram_usage_nonneg rt rc, hq, ?_⟩
  show 0 < total_latency_ms db rt lf ov
  unfold total_latency_ms
  apply div_pos
  · linarith
  · norm_num

/-- Witness for C7 amended at a concrete input. -/
theorem C7_amended_witness :
    0 ≤ (computeStep dbNormalized rtNative 10000 1 100).memory_usage_mb ∧
    0 ≤ (computeStep dbNormalized rtNative 10000 1 100).query_cost_us ∧
    0 < (computeStep dbNormalized rtNative 10000 1 100).latency_ms :=
  C7_amended dbNormalized rtNative 10000 1 100 (by norm_num) (by decide)

/-- C8 fails on the code: two non-crashed steps with the same query cost
(the denormalized 4.5 µs fast path) differ in status — WARNING under the
managed runtime with a 14000 µs overhead draw, OPTIMAL under the native
runtime with a 100 µs draw — so no fixed threshold on `query_cost_us`
characterizes WARNING: the runtime overhead does enter the condition. -/
theorem C8_counterexample :
    (computeStep dbDenormalized rtManaged 10000 1 14000).query_cost_us =
      (computeStep dbDenormalized rtNative 10000 1 100).query_cost_us ∧
    classify hwConstrained dbDenormalized rtManaged 10000 1 14000 = Status.WARNING ∧
    classify hwConstrained dbDenormalized rtNative 10000 1 100 = Status.OPTIMAL ∧
    ¬ ∃ T : ℚ, ∀ (hw db rt : String) (rc : ℕ) (lf : ℚ) (ov : ℤ),
        is_crashed hw rt rc = false →
        (classify hw db rt rc lf ov = Status.WARNING ↔
          (computeStep db rt rc lf ov).query_cost_us > T) := by
  have hA : is_crashed hwConstrained rtManaged 10000 = false :=
    is_crashed_false _ _ _ (ram_usage_le_450 _ _ (by norm_num))
  have hB : is_crashed hwConstrained rtNative 10000 = false :=
    is_crashed_false _ _ _ (ram_usage_le_450 _ _ (by norm_num))
  have hlatA : total_latency_ms dbDenormalized rtManaged 1 14000 > 10 := by
    unfold total_latency_ms
    rw [base_latency_other dbDenormalized (by decide) 1]
    norm_num
  have hlatB : ¬ (total_latency_ms dbDenormalized rtNative 1 100 > 10) := by
    unfold total_latency_ms
    rw [base_latency_other dbDenormalized (by decide) 1]
    norm_num
  have hclA : classify hwConstrained dbDenormalized rtManaged 10000 1 14000
      = Status.WARNING := by
    unfold classify
    rw [if_neg (by simp [hA]), if_pos hlatA]
  have hclB : classify hwConstrained dbDenormalized rtNative 10000 1 100
      = Status.OPTIMAL := by
    unfold classify
    rw [if_neg (by simp [hB]), if_neg hlatB]
  refine ⟨rfl, hclA, hclB, ?_⟩
  rintro ⟨T, hT⟩
  have h1 := (hT hwConstrained dbDenormalized rtManaged 10000 1 14000 hA).1 hclA
  have h2 := (hT hwConstrained dbDenormalized rtNative 10000 1 100 hB).2 h1
  rw [hclB] at h2
  exact Status.noConfusion h2

/-- C8 amended: for every non-crashed step, WARNING holds exactly when the
total latency — query cost plus runtime overhead, in milliseconds —
exceeds the fixed 10 ms threshold; the kernel's overhead does enter. -/
theorem C8_amended (hw db rt : String) (rc : ℕ) (lf : ℚ) (ov : ℤ)
    (h : is_crashed hw rt rc = false) :
    classify hw db rt rc lf ov = Status.WARNING ↔
      total_latency_ms db rt lf ov > 10 := by
  unfold classify
  rw [if_neg (by simp [h])]
  split <;> rename_i hlat
  · exact iff_of_true rfl hlat
  · exact iff_of_false (by intro hx; exact Status.noConfusion hx) hlat

/-- Witness for C8 amended at a concrete input. -/
theorem C8_amended_witness :
    is_crashed hwConstrained rtManaged 10000 = false ∧
    (classify hwConstrained dbDenormalized rtManaged 10000 1 14000 = Status.WARNING ↔
      total_latency_ms dbDenormalized rtManaged 1 14000 > 10) := by
  have hA : is_crashed hwConstrained rtManaged 10000 = false :=
    is_crashed_false _ _ _ (ram_usage_le_450 _ _ (by norm_num))
  exact ⟨hA, C8_amended hwConstrained dbDenormalized rtManaged 10000 1 14000 hA⟩

/-- C9 fails on the code: an unknown configuration string raises no error
and is silently mapped by every `else` branch — an unknown storage strategy
gets the denormalized query coefficient, an unknown runtime gets the native
base memory but the managed RAM slope — and the run proceeds through the
whole schedule. -/
theorem C9_counterexample :
    base_latency bogus 1 = base_latency dbDenormalized 1 ∧
    mem_usage_base bogus = mem_usage_base rtNative ∧
    ram_slope bogus = ram_slope rtManaged ∧
    (sim_loop hwConstrained bogus bogus lfOne ovSample entriesSample
        threeSchedule 0 init_log).reason = Reason.SCHEDULE_EXHAUSTED ∧
    (sim_loop hwConstrained bogus bogus lfOne ovSample entriesSample
        threeSchedule 0 init_log).ticks.map TickResult.rc = threeSchedule := by
  refine ⟨?_, ?_, ?_, ?_, ?_⟩
  · rw [base_latency_other bogus (by decide) 1,
      base_latency_other dbDenormalized (by decide) 1]
  · rw [mem_usage_base_other bogus (by decide),
      mem_usage_base_other rtNative (by decide)]
  · rw [ram_slope_other bogus (by decide), ram_slope_other rtManaged (by decide)]
  · exact (sim_loop_no_crash hwConstrained bogus bogus lfOne ovSample entriesSample
      threeSchedule 0 init_log (threeSchedule_no_crash hwConstrained bogus)).1
  · exact (sim_loop_no_crash hwConstrained bogus bogus lfOne ovSample entriesSample
      threeSchedule 0 init_log (threeSchedule_no_crash hwConstrained bogus)).2.1

/-- C9 amended: every string other than the recognized one falls into the
`else` branch of each coefficient lookup — the denormalized query
coefficient, the native base memory and overhead range, the managed RAM
slope — with no error path. -/
theorem C9_amended :
    (∀ s : String, s ≠ dbNormalized → ∀ lf : ℚ, base_latency s lf = 4.5 * lf) ∧
    (∀ s : String, s ≠ rtManaged →
      mem_usage_base s = 5 ∧ ov_lo s = 100 ∧ ov_hi s = 1200) ∧
    (∀ s : String, s ≠ rtNative → ram_slope s = 0.0008) := by
  refine ⟨base_latency_other, ?_, ram_slope_other⟩
  intro s h
  exact ⟨mem_usage_base_other s h, by unfold ov_lo; rw [if_neg h],
    by unfold ov_hi; rw [if_neg h]⟩

/-- Witness for C9 amended at a concrete input. -/
theorem C9_amended_witness :
    base_latency bogus 1 = 4.5 * 1 ∧ ram_slope bogus = 0.0008 :=
  ⟨C9_amended.1 bogus (by decide) 1, C9_amended.2.2 bogus (by decide)⟩

end OneM2M
